import Mathlib

/-
Verification of the claude-android-ui real-time session and auth subsystem.

The JavaScript source is embedded shallowly:
  - server/middleware/auth.js   : token extraction and verification for HTTP
                                  requests and WebSocket upgrades;
  - server/database/db.js       : the user table lookups;
  - the session lifecycle state machine, the reconnect backoff and the
    I/O bridge are not present under src/, so they are modelled from the
    specification text (each such definition says so in its doc comment).

JavaScript machine integers are modelled as Nat, strings as Lean String
(whose data is a list of characters), nullable values as Option, and a
thrown exception as the error branch of Except.  JavaScript truthiness of
a string-or-null value (null and the empty string are falsy) is made
explicit in optTruthy.
-/

/-- Splits a character list at every occurrence of the separator character,
mirroring the JavaScript `s.split(sep)` for a one-character separator. -/
def splitOnChar (c : Char) : List Char → List (List Char)
  | [] => [[]]
  | x :: xs =>
    match splitOnChar c xs with
    | [] => [[]]
    | y :: ys => if x = c then [] :: y :: ys else (x :: y) :: ys

/-- Returns the characters after the first occurrence of `c`, or none when
`c` does not occur.  Used to model taking the part of a URL after the
first question mark, and the value part of a `key=value` pair. -/
def afterFirst (c : Char) : List Char → Option (List Char)
  | [] => none
  | x :: xs => if x = c then some xs else afterFirst c xs

/-- JavaScript truthiness of a string-or-null value: null and the empty
string are falsy, every other string is truthy. -/
def optTruthy : Option String → Bool
  | none => false
  | some s => s != ""

/-- The JavaScript `a || b` on string-or-null values: yields `a` when `a`
is truthy and `b` otherwise. -/
def jsOr (a b : Option String) : Option String :=
  if optTruthy a then a else b

/-- The query portion of a request URL: the characters after the first
question mark, truncated at a fragment marker.  Percent-decoding is not
modelled; none of the tokens considered here contain escapes. -/
def queryStringOf (url : String) : Option (List Char) :=
  (afterFirst '?' url.data).map (List.takeWhile (fun ch => ch != '#'))

/-- The JavaScript `url.searchParams.get(name)`: the first `key=value`
pair of the query string whose key is `name`; a bare key yields the empty
string, an absent key yields null. -/
def searchParamsGet (url : String) (name : String) : Option String :=
  match queryStringOf url with
  | none => none
  | some q =>
    ((splitOnChar '&' q).filterMap fun pair =>
      if pair.takeWhile (fun ch => ch != '=') == name.data
      then some (String.mk ((afterFirst '=' pair).getD []))
      else none).head?

/-- One row of the `users` table (schema columns referenced by db.js). -/
structure UserRow where
  id : Nat
  username : String
  password_hash : String
  is_active : Nat
  created_at : Nat
  last_login : Option Nat
deriving DecidableEq

/-- From db.js getUserById: `SELECT ... FROM users WHERE id = ? AND
is_active = 1`, then `result.id ? result : null` (a JavaScript truthiness
check on the numeric id, so an absent row — or an id of zero — yields
null). -/
def getUserById (rows : List UserRow) (userId : Nat) : Option UserRow :=
  match rows.find? (fun r => r.id == userId && r.is_active == 1) with
  | none => none
  | some r => if r.id == 0 then none else some r

/-- From db.js getUserByUsername: `SELECT * FROM users WHERE username = ?
AND is_active = 1`, then the same `result.id ? result : null` check. -/
def getUserByUsername (rows : List UserRow) (username : String) : Option UserRow :=
  match rows.find? (fun r => r.username == username && r.is_active == 1) with
  | none => none
  | some r => if r.id == 0 then none else some r

/-- The `SELECT COUNT(*) as count FROM users` statement of db.js hasUsers:
preparing it throws when the users table does not exist (a fresh
database, modelled as `none`); otherwise it yields the row count. -/
def usersCountQuery (table : Option (List UserRow)) : Except String Nat :=
  match table with
  | none => Except.error "no such table: users"
  | some rows => Except.ok rows.length

/-- From db.js hasUsers: runs the count query inside try/catch; any query
error is caught and mapped to false, otherwise the result is
`count > 0`. -/
def hasUsers (table : Option (List UserRow)) : Bool :=
  match usersCountQuery table with
  | Except.error _ => false
  | Except.ok count => count > 0

/-- The payload of a decoded JWT as used by auth.js (`decoded.userId`). -/
structure JwtPayload where
  userId : Nat
  username : String
deriving DecidableEq

/-- The exception classes thrown by `jwt.verify` that auth.js
distinguishes in its catch blocks. -/
inductive JwtError
  | malformed
  | expired
  | notBefore
deriving DecidableEq

/-- The principal attached to an authenticated connection: the object
`{ id: user.id, username: user.username }` built by auth.js. -/
structure Principal where
  id : Nat
  username : String
deriving DecidableEq

/-- An Express request as seen by the token extraction line of
authenticateToken: the authorization header, the x-auth-token header and
the token query parameter, each possibly absent. -/
structure HttpRequest where
  authorization : Option String
  xAuthToken : Option String
  queryToken : Option String
deriving DecidableEq

/-- A WebSocket upgrade request as seen by extractWebSocketToken: the raw
URL (query string not yet parsed) and the authorization header. -/
structure WsRequest where
  url : String
  authorization : Option String
deriving DecidableEq

/-- The JavaScript `authHeader && authHeader.split(' ')[1]` of auth.js: a
falsy header stays falsy, otherwise the second space-separated word of
the header (absent when the header has no second word). -/
def bearerToken (authorization : Option String) : Option String :=
  match authorization with
  | none => none
  | some a =>
    if a == "" then some ""
    else ((splitOnChar ' ' a.data).get? 1).map String.mk

/-- The token extraction line of authenticateToken in auth.js:
`authHeader && authHeader.split(' ')[1] || req.headers['x-auth-token'] ||
req.query.token` — bearer header first, then the custom header, then the
query parameter. -/
def httpExtractToken (req : HttpRequest) : Option String :=
  jsOr (bearerToken req.authorization) (jsOr req.xAuthToken req.queryToken)

/-- From auth.js extractWebSocketToken: parses the request URL, reads the
`token` query parameter and the authorization header, and returns
`tokenFromQuery || tokenFromHeader`. -/
def extractWebSocketToken (req : WsRequest) : Option String :=
  jsOr (searchParamsGet req.url "token") (bearerToken req.authorization)

/-- The body of auth.js authenticateWebSocket before its catch clause: a
missing token returns null; `jwt.verify` may throw (the Except error
branch); a verified payload is looked up in the user table and a found
user is projected to a principal. -/
def authenticateWebSocketTry (verify : String → Except JwtError JwtPayload)
    (db : List UserRow) (token : Option String) : Except JwtError (Option Principal) :=
  match token with
  | none => Except.ok none
  | some t =>
    match verify t with
    | Except.error e => Except.error e
    | Except.ok decoded =>
      match getUserById db decoded.userId with
      | none => Except.ok none
      | some u => Except.ok (some { id := u.id, username := u.username })

/-- From auth.js authenticateWebSocket: the try body with its catch
clause, which maps every thrown error to null.  The result type says the
caller can only ever observe a principal or null. -/
def authenticateWebSocket (verify : String → Except JwtError JwtPayload)
    (db : List UserRow) (token : Option String) : Option Principal :=
  match authenticateWebSocketTry verify db token with
  | Except.ok r => r
  | Except.error _ => none

/-- The outcome of the authenticateToken middleware: either the request
proceeds with the user attached, or a 401 response with the given error
message is sent. -/
inductive AuthOutcome
  | ok (user : UserRow)
  | unauthorized (msg : String)
deriving DecidableEq

/-- The body of auth.js authenticateToken before its catch clause:
extract the token (with HTTP precedence), 401 when falsy, verify the JWT
(which may throw), look the user up, 401 when not found. -/
def authenticateTokenTry (verify : String → Except JwtError JwtPayload)
    (db : List UserRow) (req : HttpRequest) : Except JwtError AuthOutcome :=
  match httpExtractToken req with
  | none => Except.ok (AuthOutcome.unauthorized "Access token required")
  | some t =>
    if t == "" then Except.ok (AuthOutcome.unauthorized "Access token required")
    else
      match verify t with
      | Except.error e => Except.error e
      | Except.ok decoded =>
        match getUserById db decoded.userId with
        | none => Except.ok (AuthOutcome.unauthorized "Invalid token: user not found")
        | some u => Except.ok (AuthOutcome.ok u)

/-- From auth.js authenticateToken: the try body with its catch clause,
which maps each JWT exception class to the corresponding 401 response. -/
def authenticateToken (verify : String → Except JwtError JwtPayload)
    (db : List UserRow) (req : HttpRequest) : AuthOutcome :=
  match authenticateTokenTry verify db req with
  | Except.ok outcome => outcome
  | Except.error JwtError.malformed => AuthOutcome.unauthorized "Invalid token format"
  | Except.error JwtError.expired => AuthOutcome.unauthorized "Token expired"
  | Except.error JwtError.notBefore => AuthOutcome.unauthorized "Token not active yet"

/-- From auth.js verifyClient wiring of the WebSocketServer: extract the
token and authenticate it; a null result means `return false` (the
upgrade is refused), a principal means `return true` with the principal
stored on the request. -/
def verifyClient (verify : String → Except JwtError JwtPayload)
    (db : List UserRow) (req : WsRequest) : Option Principal :=
  authenticateWebSocket verify db (extractWebSocketToken req)

/-- One accepted, authenticated connection with its immutable
principal. -/
structure Connection where
  principal : Principal
deriving DecidableEq

/-- The upgrade outcome under the ws library contract: when verifyClient
returns false the upgrade is refused before the protocol handshake
completes, so no connection object ever exists; otherwise the connection
is created carrying the principal. -/
def wssUpgrade (verify : String → Except JwtError JwtPayload)
    (db : List UserRow) (req : WsRequest) : Option Connection :=
  match verifyClient verify db req with
  | none => none
  | some u => some { principal := u }

/-- The gateway step over the connected-clients registry: a successful
upgrade appends the new connection, a refused upgrade leaves the
registry untouched (no resource is ever allocated for it). -/
def upgradeAndRegister (verify : String → Except JwtError JwtPayload)
    (db : List UserRow) (registry : List Connection) (req : WsRequest) :
    List Connection × Option Connection :=
  match wssUpgrade verify db req with
  | none => (registry, none)
  | some c => (registry ++ [c], some c)

/-- Modelled from the spec: the session lifecycle states of section 4.2
(the lifecycle manager itself is not under src/). -/
inductive SessionState
  | spawning
  | running
  | draining
  | terminated
deriving DecidableEq

/-- Modelled from the spec: the events driving the section 4.2 state
machine — spawn success or failure, explicit terminate, the idle-timeout
reaper, observed process exit, and grace-period elapse. -/
inductive LifecycleEvent
  | spawnSuccess
  | spawnFailure (diagnostics : String)
  | explicitTerminate
  | idleTimeout
  | processExit
  | graceElapsed
deriving DecidableEq

/-- Position of a state along the forward chain
spawning, running, draining, terminated. -/
def stateRank : SessionState → Nat
  | SessionState.spawning => 0
  | SessionState.running => 1
  | SessionState.draining => 2
  | SessionState.terminated => 3

/-- Modelled from the spec: the section 4.2 transition graph.
`spawning -[spawn success]-> running -[explicit terminate | idle timeout
| process exit]-> draining -[exit observed | grace period elapsed]->
terminated`, plus the one error path `spawning -> terminated` when spawn
itself fails.  Events with no edge leave no transition (none). -/
def lifecycleStep : SessionState → LifecycleEvent → Option SessionState
  | SessionState.spawning, LifecycleEvent.spawnSuccess => some SessionState.running
  | SessionState.spawning, LifecycleEvent.spawnFailure _ => some SessionState.terminated
  | SessionState.running, LifecycleEvent.explicitTerminate => some SessionState.draining
  | SessionState.running, LifecycleEvent.idleTimeout => some SessionState.draining
  | SessionState.running, LifecycleEvent.processExit => some SessionState.draining
  | SessionState.draining, LifecycleEvent.processExit => some SessionState.terminated
  | SessionState.draining, LifecycleEvent.graceElapsed => some SessionState.terminated
  | _, _ => none

/-- Runs a sequence of lifecycle events from a state; an event with no
edge leaves the state unchanged. -/
def runLifecycle (s : SessionState) : List LifecycleEvent → SessionState
  | [] => s
  | e :: es => runLifecycle ((lifecycleStep s e).getD s) es

/-- Modelled from the spec: the two session kinds. -/
inductive SessionKind
  | conversation
  | shell
deriving DecidableEq

/-- Modelled from the spec: the observable outcome of spawning the
underlying CLI — a live process handle, or a failure (binary missing or
immediate non-zero exit) with its captured diagnostics. -/
inductive SpawnResult
  | ok (handle : Nat)
  | failed (diagnostics : String)
deriving DecidableEq

/-- Modelled from the spec: the session record of section 3 (the fields
the lifecycle claims are about). -/
structure Session where
  sid : String
  kind : SessionKind
  projectPath : String
  state : SessionState
  processHandle : Option Nat
  exitDiagnostics : Option String
deriving DecidableEq

/-- Modelled from the spec: `Create(kind, projectPath, resumeId?) ->
Session`.  The function is total — spawn failure is returned as a
terminal session carrying the captured diagnostics, never thrown to the
caller; spawn success yields a running session owning the handle. -/
def createSession (sid : String) (kind : SessionKind) (projectPath : String)
    (spawn : SpawnResult) : Session :=
  match spawn with
  | SpawnResult.ok h =>
    { sid := sid, kind := kind, projectPath := projectPath,
      state := SessionState.running, processHandle := some h, exitDiagnostics := none }
  | SpawnResult.failed d =>
    { sid := sid, kind := kind, projectPath := projectPath,
      state := SessionState.terminated, processHandle := none, exitDiagnostics := some d }

/-- Modelled from the spec: the per-session bridge state — the lifecycle
state plus the fan-out set of attached connection ids. -/
structure BridgeState where
  sessionState : SessionState
  attached : List Nat
deriving DecidableEq

/-- Modelled from the spec: termination of an I/O pump (EOF or connection
close) triggers pump-specific cleanup — the connection is dropped from
the fan-out set — and nothing else; only the lifecycle manager decides
session termination. -/
def handlePumpTermination (st : BridgeState) (conn : Nat) : BridgeState :=
  { st with attached := st.attached.erase conn }

/-- Modelled from the spec: the client reconnect delay before attempt n,
base delay times 1.5 to the attempt (exact rational arithmetic; the
JavaScript computation is exact for these values). -/
def reconnectDelay (baseDelay : ℚ) (attempt : Nat) : ℚ :=
  baseDelay * (3 / 2) ^ attempt

/-- Modelled from the spec: a reconnect is scheduled only after an
abnormal close (close code other than the normal-closure code) and while
the attempt count is below the configured maximum. -/
def shouldScheduleReconnect (closeCode normalClosureCode attempts maxAttempts : Nat) : Bool :=
  closeCode != normalClosureCode && decide (attempts < maxAttempts)

/-- C1: counterexample.  With the token querytok in the query string and
the token headertok in the authorization header, extractWebSocketToken
yields the query token, not the header token; a verifier that accepts
only the header token therefore rejects the connection even though the
header carried a valid credential — the gateway did not authenticate
with the header token. -/
theorem c1_counterexample :
    extractWebSocketToken
        { url := "/ws?token=querytok", authorization := some "Bearer headertok" }
      = some "querytok" ∧
    bearerToken (some "Bearer headertok") = some "headertok" ∧
    some "querytok" ≠ some "headertok" ∧
    verifyClient
        (fun t => if t == "headertok"
          then Except.ok { userId := 1, username := "alice" }
          else Except.error JwtError.malformed)
        [{ id := 1, username := "alice", password_hash := "ph", is_active := 1,
           created_at := 0, last_login := none }]
        { url := "/ws?token=querytok", authorization := some "Bearer headertok" }
      = none ∧
    authenticateWebSocket
        (fun t => if t == "headertok"
          then Except.ok { userId := 1, username := "alice" }
          else Except.error JwtError.malformed)
        [{ id := 1, username := "alice", password_hash := "ph", is_active := 1,
           created_at := 0, last_login := none }]
        (some "headertok")
      = some { id := 1, username := "alice" } := by
  decide

/-- C1 (amended): for every upgrade request whose query string carries a
truthy bearer credential, the gateway authenticates with the query
parameter's token — the query parameter takes precedence over the
authorization header when both are present. -/
theorem c1_query_token_precedence :
    ∀ (verify : String → Except JwtError JwtPayload) (db : List UserRow) (req : WsRequest),
      optTruthy (searchParamsGet req.url "token") = true →
      verifyClient verify db req =
        authenticateWebSocket verify db (searchParamsGet req.url "token") := by
  intro verify db req h
  simp [verifyClient, extractWebSocketToken, jsOr, h]

/-- C1 (amended) witness: the precedence theorem evaluated on a concrete
request carrying both a query token and a header token. -/
theorem c1_query_token_precedence_witness :
    optTruthy (searchParamsGet "/ws?token=q1" "token") = true ∧
    verifyClient (fun _ => Except.error JwtError.malformed) []
        { url := "/ws?token=q1", authorization := some "Bearer h2" } =
      authenticateWebSocket (fun _ => Except.error JwtError.malformed) []
        (searchParamsGet "/ws?token=q1" "token") :=
  ⟨by decide,
   c1_query_token_precedence (fun _ => Except.error JwtError.malformed) []
     { url := "/ws?token=q1", authorization := some "Bearer h2" } (by decide)⟩

/-- C2: whenever the identity verifier rejects the credential of an
upgrade request, the upgrade is refused outright: no connection object
is created and the connected-clients registry is left untouched — the
connection is never first accepted and then kicked. -/
theorem c2_reject_before_open :
    ∀ (verify : String → Except JwtError JwtPayload) (db : List UserRow)
      (registry : List Connection) (req : WsRequest),
      authenticateWebSocket verify db (extractWebSocketToken req) = none →
      wssUpgrade verify db req = none ∧
      upgradeAndRegister verify db registry req = (registry, none) := by
  intro verify db registry req h
  have hu : wssUpgrade verify db req = none := by
    unfold wssUpgrade verifyClient
    rw [h]
  exact ⟨hu, by unfold upgradeAndRegister; rw [hu]⟩

/-- C2 witness: the rejection theorem evaluated on a concrete request
with no credential against a verifier that rejects everything. -/
theorem c2_reject_before_open_witness :
    wssUpgrade (fun _ => Except.error JwtError.expired) []
        { url := "/ws", authorization := none } = none ∧
    upgradeAndRegister (fun _ => Except.error JwtError.expired) [] []
        { url := "/ws", authorization := none } = ([], none) :=
  c2_reject_before_open (fun _ => Except.error JwtError.expired) [] []
    { url := "/ws", authorization := none } (by decide)

/-- C3: every lifecycle transition strictly increases the position of the
state along spawning, running, draining, terminated, so under any
sequence of lifecycle events a session only moves forward through the
chain and never backward or out of order. -/
theorem c3_state_forward_only :
    (∀ (s : SessionState) (e : LifecycleEvent) (s2 : SessionState),
       lifecycleStep s e = some s2 → stateRank s < stateRank s2) ∧
    (∀ (s : SessionState) (es : List LifecycleEvent),
       stateRank s ≤ stateRank (runLifecycle s es)) := by
  have hstep : ∀ (s : SessionState) (e : LifecycleEvent) (s2 : SessionState),
      lifecycleStep s e = some s2 → stateRank s < stateRank s2 := by
    intro s e s2 h
    cases s <;> cases e <;> simp_all [lifecycleStep] <;> (subst h; decide)
  refine ⟨hstep, ?_⟩
  have hmono : ∀ (es : List LifecycleEvent) (s : SessionState),
      stateRank s ≤ stateRank (runLifecycle s es) := by
    intro es
    induction es with
    | nil => intro s; exact le_refl _
    | cons e es ih =>
      intro s
      have h1 : stateRank s ≤ stateRank ((lifecycleStep s e).getD s) := by
        cases h : lifecycleStep s e with
        | none => simp
        | some s2 => simpa using le_of_lt (hstep s e s2 h)
      exact le_trans h1 (ih ((lifecycleStep s e).getD s))
  exact fun s es => hmono es s

/-- C3 witness: the strict-increase part evaluated on the concrete
transition from spawning to running on spawn success. -/
theorem c3_state_forward_only_witness :
    stateRank SessionState.spawning < stateRank SessionState.running :=
  c3_state_forward_only.1 SessionState.spawning LifecycleEvent.spawnSuccess
    SessionState.running rfl

/-- C4: Create with a failed spawn returns normally (the function is
total, nothing is thrown): the session lands directly in the terminated
state carrying the captured diagnostics, via the spawning-to-terminated
edge of the lifecycle graph; and that edge is the only transition that
skips over any intermediate state. -/
theorem c4_spawn_failure_terminal :
    (∀ (sid : String) (kind : SessionKind) (path : String) (d : String),
       (createSession sid kind path (SpawnResult.failed d)).state = SessionState.terminated ∧
       (createSession sid kind path (SpawnResult.failed d)).exitDiagnostics = some d ∧
       lifecycleStep SessionState.spawning (LifecycleEvent.spawnFailure d) =
         some SessionState.terminated) ∧
    (∀ (s : SessionState) (e : LifecycleEvent) (s2 : SessionState),
       lifecycleStep s e = some s2 → stateRank s + 1 < stateRank s2 →
       s = SessionState.spawning ∧ s2 = SessionState.terminated ∧
       ∃ d, e = LifecycleEvent.spawnFailure d) := by
  constructor
  · intro sid kind path d
    exact ⟨rfl, rfl, rfl⟩
  · intro s e s2 h hskip
    cases s <;> cases e <;> simp_all [lifecycleStep] <;>
      (subst h; exact absurd hskip (by decide))

/-- C4 witness: the skip-transition part evaluated on the concrete
spawn-failure edge, and the Create outcome on a concrete failed spawn. -/
theorem c4_spawn_failure_terminal_witness :
    ((createSession "s1" SessionKind.conversation "/tmp/p1"
        (SpawnResult.failed "ENOENT")).state = SessionState.terminated ∧
     (createSession "s1" SessionKind.conversation "/tmp/p1"
        (SpawnResult.failed "ENOENT")).exitDiagnostics = some "ENOENT" ∧
     lifecycleStep SessionState.spawning (LifecycleEvent.spawnFailure "ENOENT") =
       some SessionState.terminated) ∧
    (SessionState.spawning = SessionState.spawning ∧
     SessionState.terminated = SessionState.terminated ∧
     ∃ d, LifecycleEvent.spawnFailure "ENOENT" = LifecycleEvent.spawnFailure d) :=
  ⟨c4_spawn_failure_terminal.1 "s1" SessionKind.conversation "/tmp/p1" "ENOENT",
   c4_spawn_failure_terminal.2 SessionState.spawning
     (LifecycleEvent.spawnFailure "ENOENT") SessionState.terminated rfl (by decide)⟩

/-- C5: the connection-time identity verifier is a total function into
principal-or-null: a missing token, a token on which jwt verification
throws (malformed, expired, not yet valid), and a token whose user id is
not an active row all yield null through the catch clause, and a token
of an active user yields that user's principal — no input makes the
function throw to the caller. -/
theorem c5_verifier_total_null_on_failure :
    ∀ (verify : String → Except JwtError JwtPayload) (db : List UserRow)
      (token : Option String),
      authenticateWebSocket verify db token =
        match token with
        | none => none
        | some t =>
          match verify t with
          | Except.error _ => none
          | Except.ok decoded =>
            match getUserById db decoded.userId with
            | none => none
            | some u => some { id := u.id, username := u.username } := by
  intro verify db token
  cases token with
  | none => rfl
  | some t =>
    cases hv : verify t with
    | error e => simp [authenticateWebSocket, authenticateWebSocketTry, hv]
    | ok decoded =>
      cases hu : getUserById db decoded.userId <;>
        simp [authenticateWebSocket, authenticateWebSocketTry, hv, hu]

/-- C6: the reconnect delay grows as base times 1.5 to the attempt, so
for a positive base the delay before each successive attempt is strictly
larger than the one before it; and once the attempt count has reached
the configured maximum no further reconnect is scheduled. -/
theorem c6_backoff_increasing_and_capped :
    (∀ (base : ℚ) (n : Nat), 0 < base →
       reconnectDelay base n < reconnectDelay base (n + 1)) ∧
    (∀ (closeCode normalCode attempts maxAttempts : Nat), maxAttempts ≤ attempts →
       shouldScheduleReconnect closeCode normalCode attempts maxAttempts = false) := by
  constructor
  · intro base n hb
    unfold reconnectDelay
    have h32 : ((3 : ℚ) / 2) ^ n < ((3 : ℚ) / 2) ^ (n + 1) := by
      apply pow_lt_pow_right₀ <;> norm_num
    exact mul_lt_mul_of_pos_left h32 hb
  · intro closeCode normalCode attempts maxAttempts h
    have hlt : decide (attempts < maxAttempts) = false :=
      decide_eq_false (Nat.not_lt.mpr h)
    simp [shouldScheduleReconnect, hlt]

/-- C6 witness: the backoff theorem evaluated at a base delay of 1000 and
attempt 0, and the cap evaluated at the fifth attempt with a maximum of
five attempts. -/
theorem c6_backoff_increasing_and_capped_witness :
    reconnectDelay 1000 0 < reconnectDelay 1000 1 ∧
    shouldScheduleReconnect 1006 1000 5 5 = false :=
  ⟨c6_backoff_increasing_and_capped.1 1000 0 (by norm_num),
   c6_backoff_increasing_and_capped.2 1006 1000 5 5 (le_refl 5)⟩

/-- C7: termination of an I/O pump (EOF or connection close) only drops
the connection from the fan-out set and leaves the session state
untouched; and a session in the running state leaves it only through an
explicit terminate, the reaper's idle timeout, or observed process exit
— no other event has an edge out of running. -/
theorem c7_pump_termination_isolated :
    (∀ (st : BridgeState) (conn : Nat),
       (handlePumpTermination st conn).sessionState = st.sessionState) ∧
    (∀ (e : LifecycleEvent) (s2 : SessionState),
       lifecycleStep SessionState.running e = some s2 →
       s2 ≠ SessionState.running →
       e = LifecycleEvent.explicitTerminate ∨ e = LifecycleEvent.idleTimeout ∨
       e = LifecycleEvent.processExit) := by
  constructor
  · intro st conn
    rfl
  · intro e s2 h _
    cases e <;> simp_all [lifecycleStep]

/-- C7 witness: the pump-cleanup part evaluated on a concrete bridge
state, and the leave-running part evaluated on the explicit-terminate
edge. -/
theorem c7_pump_termination_isolated_witness :
    (handlePumpTermination { sessionState := SessionState.running, attached := [7] } 7).sessionState
      = SessionState.running ∧
    (LifecycleEvent.explicitTerminate = LifecycleEvent.explicitTerminate ∨
     LifecycleEvent.explicitTerminate = LifecycleEvent.idleTimeout ∨
     LifecycleEvent.explicitTerminate = LifecycleEvent.processExit) :=
  ⟨c7_pump_termination_isolated.1
     { sessionState := SessionState.running, attached := [7] } 7,
   c7_pump_termination_isolated.2 LifecycleEvent.explicitTerminate
     SessionState.draining rfl (by decide)⟩

/-- C8: the user lookups return a row only when it is present in the
table with the requested key and is_active equal to one; consequently a
request carrying a still-valid token whose user has been deactivated
(no active row with the token's user id) is answered with the 401
user-not-found response by authenticateToken. -/
theorem c8_inactive_users_rejected :
    (∀ (db : List UserRow) (uid : Nat) (u : UserRow),
       getUserById db uid = some u → u ∈ db ∧ u.id = uid ∧ u.is_active = 1) ∧
    (∀ (db : List UserRow) (name : String) (u : UserRow),
       getUserByUsername db name = some u → u ∈ db ∧ u.username = name ∧ u.is_active = 1) ∧
    (∀ (verify : String → Except JwtError JwtPayload) (db : List UserRow)
       (req : HttpRequest) (t : String) (payload : JwtPayload),
       httpExtractToken req = some t → t ≠ "" →
       verify t = Except.ok payload →
       (∀ r ∈ db, r.id = payload.userId → r.is_active ≠ 1) →
       authenticateToken verify db req =
         AuthOutcome.unauthorized "Invalid token: user not found") := by
  refine ⟨?_, ?_, ?_⟩
  · intro db uid u
    cases hf : List.find? (fun r => r.id == uid && r.is_active == 1) db with
    | none => intro h; simp [getUserById, hf] at h
    | some r =>
      intro h
      simp only [getUserById, hf] at h
      cases hz : r.id == 0 with
      | true => simp [hz] at h
      | false =>
        simp only [hz, Bool.false_eq_true, if_false, Option.some.injEq] at h
        have hp := List.find?_some hf
        have hm := List.mem_of_find?_eq_some hf
        simp only [Bool.and_eq_true, beq_iff_eq] at hp
        subst h
        exact ⟨hm, hp.1, hp.2⟩
  · intro db name u
    cases hf : List.find? (fun r => r.username == name && r.is_active == 1) db with
    | none => intro h; simp [getUserByUsername, hf] at h
    | some r =>
      intro h
      simp only [getUserByUsername, hf] at h
      cases hz : r.id == 0 with
      | true => simp [hz] at h
      | false =>
        simp only [hz, Bool.false_eq_true, if_false, Option.some.injEq] at h
        have hp := List.find?_some hf
        have hm := List.mem_of_find?_eq_some hf
        simp only [Bool.and_eq_true, beq_iff_eq] at hp
        subst h
        exact ⟨hm, hp.1, hp.2⟩
  · intro verify db req t payload hex hne hv hinactive
    have hfind : List.find? (fun r => r.id == payload.userId && r.is_active == 1) db = none := by
      rw [List.find?_eq_none]
      intro r hr
      simp only [Bool.and_eq_true, beq_iff_eq, not_and]
      intro h1 h2
      exact hinactive r hr h1 h2
    have hnone : getUserById db payload.userId = none := by
      simp [getUserById, hfind]
    simp [authenticateToken, authenticateTokenTry, hex, hne, hv, hnone]

/-- C8 witness: the rejection part evaluated on a concrete single-row
table whose only user is deactivated, with a verifier accepting the
presented bearer token. -/
theorem c8_inactive_users_rejected_witness :
    authenticateToken (fun _ => Except.ok { userId := 1, username := "alice" })
        [{ id := 1, username := "alice", password_hash := "ph", is_active := 0,
           created_at := 0, last_login := none }]
        { authorization := some "Bearer sometok", xAuthToken := none, queryToken := none }
      = AuthOutcome.unauthorized "Invalid token: user not found" :=
  c8_inactive_users_rejected.2.2 (fun _ => Except.ok { userId := 1, username := "alice" })
    [{ id := 1, username := "alice", password_hash := "ph", is_active := 0,
       created_at := 0, last_login := none }]
    { authorization := some "Bearer sometok", xAuthToken := none, queryToken := none }
    "sometok" { userId := 1, username := "alice" }
    (by decide) (by decide) rfl (by decide)

/-- C9: when the users table does not exist (a fresh database), the count
query errors and hasUsers maps the caught error to false instead of
raising, so the setup-needed path is taken. -/
theorem c9_hasUsers_false_on_error :
    (∀ (table : Option (List UserRow)) (e : String),
       usersCountQuery table = Except.error e → hasUsers table = false) ∧
    hasUsers none = false := by
  constructor
  · intro table e h
    unfold hasUsers
    rw [h]
  · rfl

/-- C9 witness: the error part evaluated on the fresh database (no users
table). -/
theorem c9_hasUsers_false_on_error_witness :
    hasUsers none = false :=
  c9_hasUsers_false_on_error.1 none "no such table: users" rfl

/-- C10: authenticateToken consults the bearer part of the authorization
header first, then the x-auth-token header, then the token query
parameter; the WebSocket upgrade path consults the query parameter first
and falls back to the authorization header — the opposite ordering. -/
theorem c10_http_and_ws_opposite_precedence :
    (∀ (req : HttpRequest), optTruthy (bearerToken req.authorization) = true →
       httpExtractToken req = bearerToken req.authorization) ∧
    (∀ (req : HttpRequest), optTruthy (bearerToken req.authorization) = false →
       optTruthy req.xAuthToken = true →
       httpExtractToken req = req.xAuthToken) ∧
    (∀ (req : HttpRequest), optTruthy (bearerToken req.authorization) = false →
       optTruthy req.xAuthToken = false →
       httpExtractToken req = req.queryToken) ∧
    (∀ (req : WsRequest), optTruthy (searchParamsGet req.url "token") = true →
       extractWebSocketToken req = searchParamsGet req.url "token") ∧
    (∀ (req : WsRequest), optTruthy (searchParamsGet req.url "token") = false →
       extractWebSocketToken req = bearerToken req.authorization) := by
  refine ⟨?_, ?_, ?_, ?_, ?_⟩
  · intro req h
    simp [httpExtractToken, jsOr, h]
  · intro req h1 h2
    simp [httpExtractToken, jsOr, h1, h2]
  · intro req h1 h2
    simp [httpExtractToken, jsOr, h1, h2]
  · intro req h
    simp [extractWebSocketToken, jsOr, h]
  · intro req h
    simp [extractWebSocketToken, jsOr, h]

/-- C10 witness: the header-first HTTP ordering and the query-first
WebSocket ordering evaluated on concrete requests carrying credentials
in every position. -/
theorem c10_http_and_ws_opposite_precedence_witness :
    httpExtractToken
        { authorization := some "Bearer abc", xAuthToken := some "x1", queryToken := some "q1" }
      = bearerToken (some "Bearer abc") ∧
    extractWebSocketToken
        { url := "/ws?token=q2", authorization := some "Bearer def" }
      = searchParamsGet "/ws?token=q2" "token" :=
  ⟨c10_http_and_ws_opposite_precedence.1
     { authorization := some "Bearer abc", xAuthToken := some "x1", queryToken := some "q1" }
     (by decide),
   c10_http_and_ws_opposite_precedence.2.2.2.1
     { url := "/ws?token=q2", authorization := some "Bearer def" } (by decide)⟩
